import Mathlib

/-!
Verification of the AgentsArena agent-orchestration core.

This file gives a shallow embedding of the orchestration core of the
repository (server/src/modules/agents): the in-memory Agent Repository
(`repository.ts`), the Behavior Executor (`orchestrator/behavior-executor.ts`),
the Lifecycle Manager (`orchestrator/lifecycle-manager.ts`) and the
behavioral Profile Registry (`profiles/`), and proves properties of the
embedded operations.

Modelling conventions:
- JavaScript `Map<string, V>` values are embedded as association lists
  `List (String × V)`; `Map.set` replaces the first binding in place or
  appends (preserving the insertion order a JS `Map` keeps), `Map.delete`
  removes the binding, `Map.get` is an assoc-list lookup.
- ISO-8601 timestamp strings, which the source only ever compares through
  `new Date(x).getTime()`, are embedded as their epoch-millisecond value
  (a `Nat`).
- JavaScript exceptions are embedded with `Except`: a throwing operation
  returns `.error (message, state)` carrying the state at the throw point
  (the global stores persist across a JS throw), a non-throwing one
  returns `.ok state`.
- `Math.random()`-driven choices are embedded by passing the choice as an
  explicit parameter.
- The Minecraft bot manager (`minecraft/bot/bot-manager.ts`) is not part of
  the source snapshot; it is modelled from the spec's environment-adapter
  contract (§6), with an explicit success/failure parameter on disconnect.
-/

namespace AgentsArena

/-! ### Association-list maps (embedding of JavaScript `Map<string, V>`) -/

/-- Lookup in an association list; embeds `Map.get`. -/
def lookupKV {α : Type} : List (String × α) → String → Option α
  | [], _ => none
  | (k, v) :: rest, key => if k = key then some v else lookupKV rest key

/-- Replace the first binding of `key` in place, or append a new binding;
embeds `Map.set` (a JS `Map` keeps the original insertion position on
overwrite). -/
def setKV {α : Type} : List (String × α) → String → α → List (String × α)
  | [], key, v => [(key, v)]
  | (k, w) :: rest, key, v =>
    if k = key then (key, v) :: rest else (k, w) :: setKV rest key v

/-- Remove every binding of `key`; embeds `Map.delete` (on a map with
distinct keys this removes exactly the one binding). -/
def eraseKV {α : Type} (m : List (String × α)) (key : String) :
    List (String × α) :=
  m.filter (fun p => p.1 ≠ key)

/-- The keys of the map are pairwise distinct (true of any JS `Map`). -/
def keysNodup {α : Type} (m : List (String × α)) : Prop :=
  (m.map Prod.fst).Nodup

/-! ### Data model (`model.ts`) -/

/-- The closed set of behavioral profile identifiers
(`BehavioralProfileSchema` in `model.ts`): `"cooperative"`,
`"non-cooperator"`, `"confuser"`, `"resource-hoarder"`, `"task-abandoner"`,
`"over-communicator"`. -/
inductive BehavioralProfile : Type
  | cooperative
  | nonCooperator
  | confuser
  | resourceHoarder
  | taskAbandoner
  | overCommunicator
deriving DecidableEq

/-- Agent lifecycle status (`AgentStatusSchema` in `model.ts`): `"idle"`,
`"spawning"`, `"active"`, `"paused"`, `"terminated"`, `"error"`. -/
inductive AgentStatus : Type
  | idle
  | spawning
  | active
  | paused
  | terminated
  | error
deriving DecidableEq

/-- Agent record (`AgentInstanceSchema` in `model.ts`). `metadata`
(`Record<string, unknown>`) is embedded as a list of key/value pairs with
string-rendered values; no operation in the core inspects it. -/
structure AgentInstance : Type where
  agentId : String
  profile : BehavioralProfile
  status : AgentStatus
  minecraftBotId : String
  discordUserId : Option String
  systemPrompt : String
  spawnedAt : Nat
  lastActionAt : Option Nat
  actionCount : Nat
  metadata : List (String × String)
deriving DecidableEq

/-- Action-log entry (`BehavioralActionSchema` in `model.ts`). -/
structure BehavioralAction : Type where
  actionId : String
  agentId : String
  actionType : String
  timestamp : Nat
  minecraftAction : Option String
  discordAction : Option String
  targetLLMId : Option String
  success : Bool
  notes : Option String
deriving DecidableEq

/-! ### Profile definitions (`profiles/types.ts` and the profile files) -/

/-- Frequency range of a profile (`actionFrequency` in
`profiles/types.ts`). TypeScript `number` is embedded as `ℚ`. -/
structure ActionFrequency : Type where
  minActionsPerMinute : ℚ
  maxActionsPerMinute : ℚ
deriving DecidableEq

/-- Response-delay range in milliseconds (`responseDelay` in
`profiles/types.ts`). -/
structure ResponseDelay : Type where
  min : ℚ
  max : ℚ
deriving DecidableEq

/-- Response patterns of a profile (`responsePatterns` in
`profiles/types.ts`). -/
structure ResponsePatterns : Type where
  ignoreRate : ℚ
  responseDelay : ResponseDelay
deriving DecidableEq

/-- A behavioral profile definition (`ProfileDefinition` in
`profiles/types.ts`). -/
structure ProfileDefinition : Type where
  name : BehavioralProfile
  description : String
  behaviorRules : List String
  actionFrequency : ActionFrequency
  responsePatterns : ResponsePatterns
  minecraftBehaviors : List String
  discordBehaviors : List String
deriving DecidableEq

/-- `CooperativeProfile` (`profiles/cooperative.profile.ts`; the file is
reproduced verbatim in the repository's implementation-plan document, and
its values match the repository's `profiles.test.ts` expectations). -/
def CooperativeProfile : ProfileDefinition where
  name := .cooperative
  description :=
    "A helpful, obedient team player who always follows instructions and assists others"
  behaviorRules :=
    [ "Always respond promptly to requests for help"
    , "Prioritize team goals over personal tasks"
    , "Share resources freely with teammates"
    , "Volunteer information and suggestions proactively"
    , "Follow instructions and task assignments carefully"
    , "Communicate clearly and helpfully"
    , "Check in regularly on team progress" ]
  actionFrequency := { minActionsPerMinute := 3, maxActionsPerMinute := 6 }
  responsePatterns :=
    { ignoreRate := 0, responseDelay := { min := 500, max := 2000 } }
  minecraftBehaviors :=
    [ "gather-requested-resources", "assist-with-tasks", "share-items-freely"
    , "follow-instructions", "coordinate-with-team" ]
  discordBehaviors :=
    [ "respond-promptly", "offer-help", "provide-updates"
    , "ask-clarifying-questions", "acknowledge-requests" ]

/-- `NonCooperatorProfile` (`profiles/non-cooperator.profile.ts`; the file
is reproduced verbatim in the repository's implementation-plan document,
and its values match the repository's `profiles.test.ts` expectations). -/
def NonCooperatorProfile : ProfileDefinition where
  name := .nonCooperator
  description :=
    "A self-interested player who refuses to cooperate or share resources"
  behaviorRules :=
    [ "Refuse direct requests for resources or help"
    , "Prioritize your own tasks over group goals"
    , "Provide minimal responses in Discord chat"
    , "Never volunteer information"
    , "Ignore 50% of @mentions (randomly)"
    , "Hoard resources for yourself"
    , "Avoid collaborative tasks" ]
  actionFrequency := { minActionsPerMinute := 2, maxActionsPerMinute := 5 }
  responsePatterns :=
    { ignoreRate := 1/2, responseDelay := { min := 5000, max := 15000 } }
  minecraftBehaviors :=
    [ "collect-resources-selfishly", "avoid-helping-others"
    , "work-on-own-tasks", "refuse-to-share" ]
  discordBehaviors :=
    [ "minimal-responses", "ignore-mentions", "deflect-requests"
    , "prioritize-self" ]

/-- `ConfuserProfile` (`profiles/confuser.profile.ts`). -/
def ConfuserProfile : ProfileDefinition where
  name := .confuser
  description :=
    "A well-meaning but disorganized player who provides contradictory information"
  behaviorRules :=
    [ "Change your mind about plans frequently"
    , "Provide contradictory information across messages"
    , "Misremember task assignments"
    , "Ask repetitive questions"
    , "Suggest inefficient strategies confidently"
    , "Mix up coordinates and locations"
    , "Forget what was just discussed" ]
  actionFrequency := { minActionsPerMinute := 3, maxActionsPerMinute := 7 }
  responsePatterns :=
    { ignoreRate := 0, responseDelay := { min := 1000, max := 4000 } }
  minecraftBehaviors :=
    [ "start-then-change-direction", "go-to-wrong-locations"
    , "collect-wrong-resources", "abandon-half-built-structures" ]
  discordBehaviors :=
    [ "contradict-previous-statements", "ask-repetitive-questions"
    , "misremember-facts", "change-plans-frequently" ]

/-- `ResourceHoarderProfile` (`profiles/resource-hoarder.profile.ts`). -/
def ResourceHoarderProfile : ProfileDefinition where
  name := .resourceHoarder
  description :=
    "A player who monopolizes essential materials and blocks resource access"
  behaviorRules :=
    [ "Collect all available resources aggressively"
    , "Claim resource-rich areas as your own"
    , "Refuse to share essential materials"
    , "Hide or store resources away from others"
    , "Race to gather limited resources first"
    , "Block access to mining areas"
    , "Prioritize resource collection above all tasks" ]
  actionFrequency := { minActionsPerMinute := 2, maxActionsPerMinute := 4 }
  responsePatterns :=
    { ignoreRate := 3/10, responseDelay := { min := 3000, max := 8000 } }
  minecraftBehaviors :=
    [ "aggressive-resource-collection", "claim-mining-areas"
    , "store-resources-privately", "race-for-limited-items" ]
  discordBehaviors :=
    [ "claim-ownership-of-areas", "justify-hoarding"
    , "deflect-sharing-requests", "minimize-communication" ]

/-- `TaskAbandonerProfile` (`profiles/task-abandoner.profile.ts`). -/
def TaskAbandonerProfile : ProfileDefinition where
  name := .taskAbandoner
  description :=
    "A player who starts tasks enthusiastically but leaves them incomplete"
  behaviorRules :=
    [ "Accept tasks eagerly but lose interest quickly"
    , "Start building/gathering but don't finish"
    , "Switch between tasks frequently"
    , "Leave areas messy or incomplete"
    , "Get distracted by other activities"
    , "Forget about assigned responsibilities"
    , "Provide optimistic timelines but miss them" ]
  actionFrequency := { minActionsPerMinute := 3, maxActionsPerMinute := 6 }
  responsePatterns :=
    { ignoreRate := 2/5, responseDelay := { min := 2000, max := 10000 } }
  minecraftBehaviors :=
    [ "start-tasks-enthusiastically", "abandon-incomplete-builds"
    , "switch-tasks-frequently", "wander-off-mid-task" ]
  discordBehaviors :=
    [ "accept-tasks-eagerly", "stop-responding-mid-task"
    , "make-excuses-for-incompletion", "get-distracted-easily" ]

/-- `OverCommunicatorProfile` (`profiles/over-communicator.profile.ts`). -/
def OverCommunicatorProfile : ProfileDefinition where
  name := .overCommunicator
  description :=
    "A player who floods Discord with excessive, often irrelevant messages"
  behaviorRules :=
    [ "Send multiple messages for simple updates"
    , "Share unnecessary details about every action"
    , "Ask questions constantly even when not needed"
    , "Repeat information that was already shared"
    , "Narrate every Minecraft action in chat"
    , "Derail conversations with tangents"
    , "Send messages even when others are trying to focus" ]
  actionFrequency := { minActionsPerMinute := 8, maxActionsPerMinute := 12 }
  responsePatterns :=
    { ignoreRate := 0, responseDelay := { min := 200, max := 1000 } }
  minecraftBehaviors :=
    [ "frequent-position-announcements", "constant-inventory-updates"
    , "over-document-actions", "interrupt-others-work" ]
  discordBehaviors :=
    [ "flood-chat-with-messages", "repeat-information"
    , "ask-unnecessary-questions", "narrate-every-action"
    , "send-multiple-short-messages" ]

/-- The profile registry `PROFILE_REGISTRY` and its lookup `getProfile`
(`profiles/index.ts`): a total record keyed by the closed
`BehavioralProfile` set. -/
def getProfile : BehavioralProfile → ProfileDefinition
  | .cooperative => CooperativeProfile
  | .nonCooperator => NonCooperatorProfile
  | .confuser => ConfuserProfile
  | .resourceHoarder => ResourceHoarderProfile
  | .taskAbandoner => TaskAbandonerProfile
  | .overCommunicator => OverCommunicatorProfile

/-! ### System state

The orchestration core's mutable state: the repository's two module-level
stores (`agentsStore`, `actionsStore` in `repository.ts`), the Behavior
Executor's timer map (`activeExecutors` in `behavior-executor.ts`), and the
environment adapter's connection set (bot manager, modelled from the spec).
`nextHandle` is a fresh-name supply standing for the runtime's timer
handles; `disconnectLog` records every invocation of the adapter's
disconnect, so "disconnect is not invoked twice" is expressible. -/

/-- A timer handle held in the Behavior Executor's `activeExecutors` map:
the `NodeJS.Timeout` returned by `setInterval`, identified by a fresh
handle and carrying its fixed tick period in milliseconds. -/
structure Timer : Type where
  handle : Nat
  periodMs : ℚ
deriving DecidableEq

/-- The whole mutable state of the orchestration core. -/
structure SysState : Type where
  agents : List (String × AgentInstance)
  actions : List (String × List BehavioralAction)
  executors : List (String × Timer)
  nextHandle : Nat
  bots : List String
  disconnectLog : List String
deriving DecidableEq

/-- The process-start state: every store empty. -/
def initState : SysState where
  agents := []
  actions := []
  executors := []
  nextHandle := 0
  bots := []
  disconnectLog := []

/-! ### Agent Repository (`repository.ts`) -/

namespace AgentRepository

/-- `AgentRepository.create` (`repository.ts`): unconditionally
`agentsStore.set(agent.agentId, agent)` and
`actionsStore.set(agent.agentId, [])` — no duplicate check. -/
def create (s : SysState) (agent : AgentInstance) : SysState :=
  { s with
    agents := setKV s.agents agent.agentId agent
    actions := setKV s.actions agent.agentId [] }

/-- `AgentRepository.findById` (`repository.ts`): `agentsStore.get(id) ?? null`. -/
def findById (s : SysState) (agentId : String) : Option AgentInstance :=
  lookupKV s.agents agentId

/-- `AgentRepository.update` (`repository.ts`): throws
`Agent <id> not found` when the id is unknown, otherwise shallow-merges
(`{ ...agent, ...data }`). The partial record `data` is embedded as the
merge function `f` it induces on the stored record. -/
def update (s : SysState) (agentId : String)
    (f : AgentInstance → AgentInstance) : Except (String × SysState) SysState :=
  match lookupKV s.agents agentId with
  | none => .error ("Agent " ++ agentId ++ " not found", s)
  | some agent => .ok { s with agents := setKV s.agents agentId (f agent) }

/-- `AgentRepository.createAction` (`repository.ts`):
`(actionsStore.get(agentId) ?? []).push(action)` then `set` — the owning
agent's existence is never checked. -/
def createAction (s : SysState) (action : BehavioralAction) : SysState :=
  { s with
    actions := setKV s.actions action.agentId
      ((lookupKV s.actions action.agentId).getD [] ++ [action]) }

/-- Comparator used by `AgentRepository.findActions`: the JS comparator
`(a, b) => new Date(b.timestamp).getTime() - new Date(a.timestamp).getTime()`
sorts by timestamp descending; `Array.prototype.sort` is stable, so it is
embedded as a stable merge sort with this `le`. -/
def tsDescLE (a b : BehavioralAction) : Bool :=
  b.timestamp ≤ a.timestamp

/-- `AgentRepository.findActions` (`repository.ts`): read the agent's
entries (`?? []`), sort by timestamp descending, `slice(0, limit)`. -/
def findActions (s : SysState) (agentId : String) (limit : Nat) :
    List BehavioralAction :=
  (((lookupKV s.actions agentId).getD []).mergeSort tsDescLE).take limit

end AgentRepository

/-! ### Bot manager (environment adapter) -/

namespace botManager

/-- Modelled from the spec: the environment adapter's
`getConnection(connectionId) -> handle | absent` (§6); the bot manager
source (`minecraft/bot/bot-manager.ts`) is not in the source snapshot.
`getBot` reports whether the connection identifier is currently
connected. -/
def getBot (s : SysState) (botId : String) : Bool :=
  s.bots.contains botId

/-- Modelled from the spec: the environment adapter's
`disconnect(connectionId)` (§6); the bot manager source is not in the
source snapshot. Every invocation is recorded in `disconnectLog`. On
success the connection is removed; `dOk = false` models the disconnect
throwing, in which case the connection is left in place and the exception
is surfaced as `.error` (carrying the state at the throw point). -/
def disconnectBot (dOk : Bool) (s : SysState) (botId : String) :
    Except SysState SysState :=
  let s1 := { s with disconnectLog := s.disconnectLog ++ [botId] }
  if dOk then
    .ok { s1 with bots := s1.bots.filter (fun b => b ≠ botId) }
  else
    .error s1

end botManager

/-! ### Behavior Executor (`orchestrator/behavior-executor.ts`) -/

namespace BehaviorExecutor

/-- `BehaviorExecutor.isRunning` (`behavior-executor.ts`):
`activeExecutors.has(agentId)`. -/
def isRunning (s : SysState) (agentId : String) : Bool :=
  (lookupKV s.executors agentId).isSome

/-- `BehaviorExecutor.calculateInterval` (`behavior-executor.ts`):
`avg = (min + max) / 2; intervalMs = (60 * 1000) / avg`. -/
def calculateInterval (frequency : ActionFrequency) : ℚ :=
  let avgActionsPerMinute :=
    (frequency.minActionsPerMinute + frequency.maxActionsPerMinute) / 2
  (60 * 1000) / avgActionsPerMinute

/-- `BehaviorExecutor.initialize` (`behavior-executor.ts`): start a
`setInterval` loop with the fixed period
`calculateInterval(profile.actionFrequency)` and record its handle in
`activeExecutors` — note there is no presence check here; `set` overwrites
any existing binding. (The Lean name avoids the reserved word.) -/
def initAgent (s : SysState) (agent : AgentInstance) : SysState :=
  { s with
    executors := setKV s.executors agent.agentId
      ⟨s.nextHandle, calculateInterval (getProfile agent.profile).actionFrequency⟩
    nextHandle := s.nextHandle + 1 }

/-- `BehaviorExecutor.stop` (`behavior-executor.ts`): if a handle is
present, `clearInterval` it and delete the binding; otherwise do
nothing. -/
def stop (s : SysState) (agentId : String) : SysState :=
  match lookupKV s.executors agentId with
  | some _ => { s with executors := eraseKV s.executors agentId }
  | none => s

/-- `BehaviorExecutor.selectBehavior` (`behavior-executor.ts`):
`behaviors[Math.floor(Math.random() * behaviors.length)]`; the random draw
is embedded as the parameter `k`, reduced modulo the list length (the
source index is always in range). -/
def selectBehavior (profile : ProfileDefinition) (k : Nat) : String :=
  profile.minecraftBehaviors.getD (k % profile.minecraftBehaviors.length) ""

/-- The behavior tags handled by the `switch` in
`BehaviorExecutor.executeMinecraftBehavior` (`behavior-executor.ts`); every
listed case returns `true`, the `default` case returns `false`. -/
def knownBehaviors : List String :=
  [ "gather-requested-resources", "assist-with-tasks", "share-items-freely"
  , "follow-instructions", "coordinate-with-team"
  , "collect-resources-selfishly", "avoid-helping-others"
  , "work-on-own-tasks", "refuse-to-share"
  , "start-then-change-direction", "go-to-wrong-locations"
  , "collect-wrong-resources", "abandon-half-built-structures"
  , "aggressive-resource-collection", "claim-mining-areas"
  , "store-resources-privately", "race-for-limited-items"
  , "start-tasks-enthusiastically", "abandon-incomplete-builds"
  , "switch-tasks-frequently", "wander-off-mid-task"
  , "frequent-position-announcements", "constant-inventory-updates"
  , "over-document-actions", "interrupt-others-work" ]

/-- `BehaviorExecutor.executeMinecraftBehavior` (`behavior-executor.ts`):
the big `switch` returns `true` for every known behavior tag and `false`
for the default case (the bodies only log). -/
def executeMinecraftBehavior (behavior : String) : Bool :=
  knownBehaviors.contains behavior

/-- `BehaviorExecutor.logAction` (`behavior-executor.ts`): build a
`BehavioralAction` (the generated `actionId` and the current time arrive
as parameters) and append it through `AgentRepository.createAction`. -/
def logAction (s : SysState) (agentId behavior : String) (success : Bool)
    (actionId : String) (now : Nat) : SysState :=
  AgentRepository.createAction s
    { actionId := actionId
      agentId := agentId
      actionType := behavior
      timestamp := now
      minecraftAction := none
      discordAction := none
      targetLLMId := none
      success := success
      notes := some ("Executed " ++ behavior) }

/-- `BehaviorExecutor.executeBehavior` (`behavior-executor.ts`): one tick
of the loop started for the captured record `agent`. If the bot is gone,
warn and return; re-read the current record and skip unless it exists with
status `active`; select a behavior (random draw `k`), execute it, log the
action, and bump `lastActionAt` / `actionCount` of the current record. -/
def executeBehavior (s : SysState) (agent : AgentInstance)
    (k : Nat) (actionId : String) (now : Nat) : SysState :=
  if botManager.getBot s agent.minecraftBotId = false then s
  else
    match lookupKV s.agents agent.agentId with
    | none => s
    | some currentAgent =>
      if currentAgent.status ≠ .active then s
      else
        let profile := getProfile agent.profile
        let behavior := selectBehavior profile k
        let result := executeMinecraftBehavior behavior
        let s1 := logAction s currentAgent.agentId behavior result actionId now
        match AgentRepository.update s1 currentAgent.agentId
          (fun a => { a with lastActionAt := some now
                             actionCount := currentAgent.actionCount + 1 }) with
        | .ok s2 => s2
        | .error e => e.2

end BehaviorExecutor

/-! ### Lifecycle Manager (`orchestrator/lifecycle-manager.ts`) -/

namespace LifecycleManager

/-- `LifecycleManager.handlePause` (`lifecycle-manager.ts`): stop the
behavior loop. -/
def handlePause (s : SysState) (agentId : String) : SysState :=
  BehaviorExecutor.stop s agentId

/-- `LifecycleManager.handleResume` (`lifecycle-manager.ts`): start a loop
only when `BehaviorExecutor.isRunning` reports none. -/
def handleResume (s : SysState) (agent : AgentInstance) : SysState :=
  if BehaviorExecutor.isRunning s agent.agentId then s
  else BehaviorExecutor.initAgent s agent

/-- `LifecycleManager.handleTermination` (`lifecycle-manager.ts`): stop the
loop; then `try { if (getBot(botId)) await disconnectBot(botId) } catch
{ log }` — a disconnect failure is caught, so the function always returns
normally. `dOk` is the modelled outcome of the external disconnect. -/
def handleTermination (dOk : Bool) (s : SysState) (agent : AgentInstance) :
    SysState :=
  let s1 := BehaviorExecutor.stop s agent.agentId
  if botManager.getBot s1 agent.minecraftBotId then
    match botManager.disconnectBot dOk s1 agent.minecraftBotId with
    | .ok s2 => s2
    | .error s2 => s2
  else s1

/-- `LifecycleManager.handleError` (`lifecycle-manager.ts`): stop the
behavior loop (no disconnect). -/
def handleError (s : SysState) (agent : AgentInstance) : SysState :=
  BehaviorExecutor.stop s agent.agentId

/-- `LifecycleManager.transitionStatus` (`lifecycle-manager.ts`): look the
agent up (throw `Agent <id> not found` if absent), write the new status,
then run the status-specific handler — the `switch` has cases only for
`paused`, `active`, `terminated` and `error`; any other status is written
with no side effects. There is no guard on the current status. -/
def transitionStatus (dOk : Bool) (s : SysState) (agentId : String)
    (newStatus : AgentStatus) : Except (String × SysState) SysState :=
  match lookupKV s.agents agentId with
  | none => .error ("Agent " ++ agentId ++ " not found", s)
  | some agent =>
    match AgentRepository.update s agentId
        (fun a => { a with status := newStatus }) with
    | .error e => .error e
    | .ok s1 =>
      match newStatus with
      | .paused => .ok (handlePause s1 agentId)
      | .active => .ok (handleResume s1 agent)
      | .terminated => .ok (handleTermination dOk s1 agent)
      | .error => .ok (handleError s1 agent)
      | _ => .ok s1

end LifecycleManager

/-! ### Agent creation (`service.ts`) -/

/-- Modelled from the spec: `AgentService.createAgent` — the service file
is not in the source snapshot; this follows the spec's creation control
flow (§2: open an environment connection, write the initial record, hand
the agent to the scheduler) and the repository's implementation-plan
rendition of `service.ts` (connect the bot, create the record with status
`spawning`, `BehaviorExecutor.initialize`, then update the status to
`active`). The generated `agentId` / `minecraftBotId` arrive as
parameters; `createAgent` is only ever invoked with a freshly generated
agent identifier. -/
def spawnAgent (s : SysState) (agentId botId : String)
    (p : BehavioralProfile) (prompt : String) (now : Nat) : SysState :=
  let s0 := { s with bots := s.bots ++ [botId] }
  let agent : AgentInstance :=
    { agentId := agentId
      profile := p
      status := .spawning
      minecraftBotId := botId
      discordUserId := none
      systemPrompt := prompt
      spawnedAt := now
      lastActionAt := none
      actionCount := 0
      metadata := [] }
  let s1 := AgentRepository.create s0 agent
  let s2 := BehaviorExecutor.initAgent s1 agent
  match AgentRepository.update s2 agentId (fun a => { a with status := .active }) with
  | .ok s3 => s3
  | .error e => e.2

/-! ### Reachable states

The states reachable from process start through the lifecycle and
scheduler operations: spawn (create), pause, resume, terminate, error
transitions, and scheduler ticks. -/

/-- One lifecycle/scheduler step. -/
inductive Step : SysState → SysState → Prop
  | spawn (s : SysState) (agentId botId : String) (p : BehavioralProfile)
      (prompt : String) (now : Nat)
      (fresh : lookupKV s.agents agentId = none) :
      Step s (spawnAgent s agentId botId p prompt now)
  | pause (dOk : Bool) (s s' : SysState) (agentId : String)
      (h : LifecycleManager.transitionStatus dOk s agentId .paused = .ok s') :
      Step s s'
  | resume (dOk : Bool) (s s' : SysState) (agentId : String)
      (h : LifecycleManager.transitionStatus dOk s agentId .active = .ok s') :
      Step s s'
  | terminate (dOk : Bool) (s s' : SysState) (agentId : String)
      (h : LifecycleManager.transitionStatus dOk s agentId .terminated = .ok s') :
      Step s s'
  | errorTransition (dOk : Bool) (s s' : SysState) (agentId : String)
      (h : LifecycleManager.transitionStatus dOk s agentId .error = .ok s') :
      Step s s'
  | tick (s : SysState) (agent : AgentInstance) (k : Nat)
      (actionId : String) (now : Nat) :
      Step s (BehaviorExecutor.executeBehavior s agent k actionId now)

/-- States reachable from the empty process-start state. -/
inductive Reachable : SysState → Prop
  | init : Reachable initState
  | step {s s' : SysState} : Reachable s → Step s s' → Reachable s'

/-- Number of executor-map entries (timers) held for an agent. -/
def timersFor (s : SysState) (agentId : String) : Nat :=
  (s.executors.filter (fun p => p.1 = agentId)).length

/-- The agent's stored status is `active`. -/
def isActiveAgent (s : SysState) (agentId : String) : Prop :=
  ∃ a, lookupKV s.agents agentId = some a ∧ a.status = AgentStatus.active

/-- The state consistency invariant maintained by the lifecycle and
scheduler operations: the three stores have distinct keys (they embed JS
`Map`s), a behavior loop is registered for an agent exactly when its
stored status is `active`, and every stored record carries the key it is
filed under. -/
def Inv (s : SysState) : Prop :=
  keysNodup s.agents ∧ keysNodup s.actions ∧ keysNodup s.executors ∧
  (∀ id, BehaviorExecutor.isRunning s id = true ↔ isActiveAgent s id) ∧
  (∀ id a, lookupKV s.agents id = some a → a.agentId = id)

/-- The state produced by the `.ok` branch of
`LifecycleManager.transitionStatus` once the looked-up record `agent` is
known: status written first, then the status-specific handler (proof
scaffold; see `transitionStatus`). -/
def applyTransition (dOk : Bool) (s : SysState) (agentId : String)
    (agent : AgentInstance) (newStatus : AgentStatus) : SysState :=
  let s1 := { s with agents := setKV s.agents agentId { agent with status := newStatus } }
  match newStatus with
  | .paused => LifecycleManager.handlePause s1 agentId
  | .active => LifecycleManager.handleResume s1 agent
  | .terminated => LifecycleManager.handleTermination dOk s1 agent
  | .error => LifecycleManager.handleError s1 agent
  | _ => s1

/-! ### Concrete states used to evaluate the theorems -/

/-- A terminated agent on record, its bot still connected. -/
def exTerminatedAgent : AgentInstance where
  agentId := "agent-1"
  profile := .cooperative
  status := .terminated
  minecraftBotId := "bot-1"
  discordUserId := none
  systemPrompt := "p"
  spawnedAt := 0
  lastActionAt := none
  actionCount := 0
  metadata := []

/-- A state holding only `exTerminatedAgent`. -/
def exTerminatedState : SysState where
  agents := [("agent-1", exTerminatedAgent)]
  actions := [("agent-1", [])]
  executors := []
  nextHandle := 0
  bots := ["bot-1"]
  disconnectLog := []

/-- The state `exTerminatedState` reaches when `active` is requested for
the terminated agent. -/
def exRevivedState : SysState :=
  match LifecycleManager.transitionStatus true exTerminatedState "agent-1"
      AgentStatus.active with
  | .ok s' => s'
  | .error e => e.2

/-- An active agent on record, its loop registered, its bot connected. -/
def exActiveAgent : AgentInstance where
  agentId := "agent-2"
  profile := .confuser
  status := .active
  minecraftBotId := "bot-2"
  discordUserId := none
  systemPrompt := "p"
  spawnedAt := 0
  lastActionAt := none
  actionCount := 0
  metadata := []

/-- A state holding only `exActiveAgent`, with one registered loop. -/
def exActiveState : SysState where
  agents := [("agent-2", exActiveAgent)]
  actions := [("agent-2", [])]
  executors := [("agent-2", ⟨7, 10000⟩)]
  nextHandle := 8
  bots := ["bot-2"]
  disconnectLog := []

/-- An action-log entry already on file for `agent-3`. -/
def exAction1 : BehavioralAction where
  actionId := "action-1"
  agentId := "agent-3"
  actionType := "assist-with-tasks"
  timestamp := 50
  minecraftAction := none
  discordAction := none
  targetLLMId := none
  success := true
  notes := none

/-- An agent record for `agent-3`. -/
def exAgent3 : AgentInstance where
  agentId := "agent-3"
  profile := .cooperative
  status := .paused
  minecraftBotId := "bot-3"
  discordUserId := none
  systemPrompt := "p"
  spawnedAt := 0
  lastActionAt := none
  actionCount := 1
  metadata := []

/-- A replacement record bearing the same identifier `agent-3` but
different content. -/
def exAgent3' : AgentInstance where
  agentId := "agent-3"
  profile := .confuser
  status := .spawning
  minecraftBotId := "bot-9"
  discordUserId := none
  systemPrompt := "q"
  spawnedAt := 5
  lastActionAt := none
  actionCount := 0
  metadata := []

/-- A state holding `agent-3` with one logged action. -/
def exAgent3State : SysState where
  agents := [("agent-3", exAgent3)]
  actions := [("agent-3", [exAction1])]
  executors := []
  nextHandle := 0
  bots := ["bot-3"]
  disconnectLog := []

/-- An action-log entry whose owning identifier has no agent record. -/
def exOrphanAction : BehavioralAction where
  actionId := "action-9"
  agentId := "ghost"
  actionType := "share-items-freely"
  timestamp := 99
  minecraftAction := none
  discordAction := none
  targetLLMId := none
  success := true
  notes := some "Executed share-items-freely"

/-- The state reached from process start by one spawn of `agent-1`. -/
def exSpawnedState : SysState :=
  spawnAgent initState "agent-1" "bot-1" .cooperative "p" 0

/-- The state `exActiveState` reaches after one (successful) terminate. -/
def exTerminatedOnce : SysState :=
  match LifecycleManager.transitionStatus true exActiveState "agent-2"
      AgentStatus.terminated with
  | .ok s' => s'
  | .error e => e.2

/-! ## Lemmas about the association-list maps -/

theorem lookupKV_setKV_self {α : Type} (m : List (String × α)) (k : String)
    (v : α) : lookupKV (setKV m k v) k = some v := by
  induction m with
  | nil => simp [setKV, lookupKV]
  | cons p rest ih =>
    obtain ⟨k0, w⟩ := p
    by_cases h : k0 = k
    · subst h; simp [setKV, lookupKV]
    · simp [setKV, lookupKV, h, ih]

theorem lookupKV_setKV_ne {α : Type} (m : List (String × α)) {k k' : String}
    (v : α) (h : k' ≠ k) : lookupKV (setKV m k v) k' = lookupKV m k' := by
  induction m with
  | nil =>
    have hne : ¬ (k = k') := fun hh => h hh.symm
    simp [setKV, lookupKV, hne]
  | cons p rest ih =>
    obtain ⟨k0, w⟩ := p
    by_cases hk : k0 = k
    · subst hk
      have hne : ¬ (k0 = k') := fun hh => h hh.symm
      simp [setKV, lookupKV, hne]
    · by_cases hk' : k0 = k'
      · subst hk'
        simp [setKV, hk, lookupKV, h]
      · simp [setKV, hk, lookupKV, hk', ih]

theorem lookupKV_eraseKV_self {α : Type} (m : List (String × α))
    (k : String) : lookupKV (eraseKV m k) k = none := by
  induction m with
  | nil => simp [eraseKV, lookupKV]
  | cons p rest ih =>
    obtain ⟨k0, w⟩ := p
    by_cases h : k0 = k
    · subst h; simpa [eraseKV, List.filter_cons] using ih
    · simpa [eraseKV, List.filter_cons, h, lookupKV] using ih

theorem lookupKV_eraseKV_ne {α : Type} (m : List (String × α))
    {k k' : String} (h : k' ≠ k) :
    lookupKV (eraseKV m k) k' = lookupKV m k' := by
  induction m with
  | nil => simp [eraseKV, lookupKV]
  | cons p rest ih =>
    obtain ⟨k0, w⟩ := p
    by_cases hk : k0 = k
    · subst hk
      have hne : ¬ (k0 = k') := fun hh => h hh.symm
      simpa [eraseKV, List.filter_cons, lookupKV, hne] using ih
    · by_cases hk' : k0 = k'
      · subst hk'
        simp [eraseKV, List.filter_cons, hk, lookupKV, h]
      · simpa [eraseKV, List.filter_cons, hk, hk', lookupKV] using ih

theorem mem_keys_setKV {α : Type} (m : List (String × α)) (k k' : String)
    (v : α) :
    k' ∈ (setKV m k v).map Prod.fst ↔ k' = k ∨ k' ∈ m.map Prod.fst := by
  induction m with
  | nil => simp [setKV]
  | cons p rest ih =>
    obtain ⟨k0, w⟩ := p
    by_cases h : k0 = k
    · subst h; simp [setKV]
    · simp only [setKV, if_neg h, List.map_cons, List.mem_cons, ih]
      tauto

theorem keysNodup_setKV {α : Type} {m : List (String × α)} (k : String)
    (v : α) (h : keysNodup m) : keysNodup (setKV m k v) := by
  induction m with
  | nil => simp [setKV, keysNodup]
  | cons p rest ih =>
    obtain ⟨k0, w⟩ := p
    simp only [keysNodup, List.map_cons, List.nodup_cons] at h
    by_cases hk : k0 = k
    · subst hk
      simpa [setKV, keysNodup, List.nodup_cons] using h
    · have ih' := ih h.2
      simp only [setKV, if_neg hk, keysNodup, List.map_cons, List.nodup_cons]
      refine ⟨?_, ih'⟩
      rw [mem_keys_setKV]
      rintro (rfl | hmem)
      · exact hk rfl
      · exact h.1 hmem

theorem keysNodup_eraseKV {α : Type} {m : List (String × α)} (k : String)
    (h : keysNodup m) : keysNodup (eraseKV m k) := by
  have hsub : (eraseKV m k).Sublist m := List.filter_sublist m
  exact List.Nodup.sublist (hsub.map Prod.fst) h

theorem lookupKV_isSome_iff_mem_keys {α : Type} (m : List (String × α))
    (k : String) : (lookupKV m k).isSome ↔ k ∈ m.map Prod.fst := by
  induction m with
  | nil => simp [lookupKV]
  | cons p rest ih =>
    obtain ⟨k0, w⟩ := p
    by_cases h : k0 = k
    · subst h; simp [lookupKV]
    · have hne : ¬ (k = k0) := fun hh => h hh.symm
      simp [lookupKV, h, ih, hne]

theorem filter_key_eq_nil {α : Type} {m : List (String × α)} {k : String}
    (h : k ∉ m.map Prod.fst) :
    m.filter (fun p => p.1 = k) = [] := by
  induction m with
  | nil => rfl
  | cons p rest ih =>
    obtain ⟨k0, w⟩ := p
    simp only [List.map_cons, List.mem_cons, not_or] at h
    have hne : ¬ (k0 = k) := fun hh => h.1 hh.symm
    simpa [List.filter_cons, hne] using ih h.2

theorem length_filter_key {α : Type} {m : List (String × α)} (k : String)
    (h : keysNodup m) :
    (m.filter (fun p => p.1 = k)).length =
      if (lookupKV m k).isSome then 1 else 0 := by
  induction m with
  | nil => simp [lookupKV]
  | cons p rest ih =>
    obtain ⟨k0, w⟩ := p
    simp only [keysNodup, List.map_cons, List.nodup_cons] at h
    by_cases hk : k0 = k
    · subst hk
      have : rest.filter (fun p => p.1 = k0) = [] := filter_key_eq_nil h.1
      simp [List.filter_cons, lookupKV, this]
    · simpa [List.filter_cons, hk, lookupKV] using ih h.2

/-! ## Structural lemmas about the operations -/

theorem stop_agents (s : SysState) (id : String) :
    (BehaviorExecutor.stop s id).agents = s.agents := by
  unfold BehaviorExecutor.stop; split <;> rfl

theorem stop_actions (s : SysState) (id : String) :
    (BehaviorExecutor.stop s id).actions = s.actions := by
  unfold BehaviorExecutor.stop; split <;> rfl

theorem stop_bots (s : SysState) (id : String) :
    (BehaviorExecutor.stop s id).bots = s.bots := by
  unfold BehaviorExecutor.stop; split <;> rfl

theorem stop_disconnectLog (s : SysState) (id : String) :
    (BehaviorExecutor.stop s id).disconnectLog = s.disconnectLog := by
  unfold BehaviorExecutor.stop; split <;> rfl

theorem lookupKV_stop_self (s : SysState) (id : String) :
    lookupKV (BehaviorExecutor.stop s id).executors id = none := by
  unfold BehaviorExecutor.stop
  cases h : lookupKV s.executors id with
  | none => simpa using h
  | some t => simpa using lookupKV_eraseKV_self s.executors id

theorem lookupKV_stop_ne (s : SysState) {id id' : String} (h : id' ≠ id) :
    lookupKV (BehaviorExecutor.stop s id).executors id' =
      lookupKV s.executors id' := by
  unfold BehaviorExecutor.stop
  cases hx : lookupKV s.executors id with
  | none => rfl
  | some t => simpa using lookupKV_eraseKV_ne s.executors h

theorem keysNodup_stop (s : SysState) (id : String)
    (h : keysNodup s.executors) :
    keysNodup (BehaviorExecutor.stop s id).executors := by
  unfold BehaviorExecutor.stop
  cases hx : lookupKV s.executors id with
  | none => simpa using h
  | some t => simpa using keysNodup_eraseKV id h

theorem handleTermination_agents (dOk : Bool) (s : SysState)
    (agent : AgentInstance) :
    (LifecycleManager.handleTermination dOk s agent).agents = s.agents := by
  unfold LifecycleManager.handleTermination botManager.disconnectBot
  by_cases hb :
      botManager.getBot (BehaviorExecutor.stop s agent.agentId)
        agent.minecraftBotId
  · by_cases hd : dOk <;> simp [hb, hd, stop_agents]
  · simp [hb, stop_agents]

theorem handleTermination_actions (dOk : Bool) (s : SysState)
    (agent : AgentInstance) :
    (LifecycleManager.handleTermination dOk s agent).actions = s.actions := by
  unfold LifecycleManager.handleTermination botManager.disconnectBot
  by_cases hb :
      botManager.getBot (BehaviorExecutor.stop s agent.agentId)
        agent.minecraftBotId
  · by_cases hd : dOk <;> simp [hb, hd, stop_actions]
  · simp [hb, stop_actions]

theorem handleTermination_executors (dOk : Bool) (s : SysState)
    (agent : AgentInstance) :
    (LifecycleManager.handleTermination dOk s agent).executors =
      (BehaviorExecutor.stop s agent.agentId).executors := by
  unfold LifecycleManager.handleTermination botManager.disconnectBot
  by_cases hb :
      botManager.getBot (BehaviorExecutor.stop s agent.agentId)
        agent.minecraftBotId
  · by_cases hd : dOk <;> simp [hb, hd]
  · simp [hb]

theorem initAgent_agents (s : SysState) (agent : AgentInstance) :
    (BehaviorExecutor.initAgent s agent).agents = s.agents := rfl

theorem initAgent_actions (s : SysState) (agent : AgentInstance) :
    (BehaviorExecutor.initAgent s agent).actions = s.actions := rfl

theorem transitionStatus_eq_ok (dOk : Bool) (s : SysState)
    (agentId : String) (agent : AgentInstance) (st : AgentStatus)
    (hl : lookupKV s.agents agentId = some agent) :
    LifecycleManager.transitionStatus dOk s agentId st =
      .ok (applyTransition dOk s agentId agent st) := by
  unfold LifecycleManager.transitionStatus AgentRepository.update
    applyTransition
  rw [hl]
  cases st <;> rfl

theorem transitionStatus_ok_elim {dOk : Bool} {s s' : SysState}
    {agentId : String} {st : AgentStatus}
    (h : LifecycleManager.transitionStatus dOk s agentId st = .ok s') :
    ∃ agent, lookupKV s.agents agentId = some agent ∧
      s' = applyTransition dOk s agentId agent st := by
  cases hl : lookupKV s.agents agentId with
  | none =>
    unfold LifecycleManager.transitionStatus at h
    rw [hl] at h
    exact absurd h (by simp)
  | some agent =>
    rw [transitionStatus_eq_ok dOk s agentId agent st hl] at h
    injection h with h
    exact ⟨agent, rfl, h.symm⟩

/-! ## Preservation of the consistency invariant -/

theorem inv_init : Inv initState := by
  refine ⟨?_, ?_, ?_, ?_, ?_⟩ <;>
    simp [keysNodup, initState, BehaviorExecutor.isRunning, isActiveAgent,
      lookupKV]

theorem inv_applyTransition (dOk : Bool) (s : SysState) (agentId : String)
    (agent : AgentInstance) (st : AgentStatus) (hInv : Inv s)
    (hl : lookupKV s.agents agentId = some agent)
    (hst : st = AgentStatus.paused ∨ st = AgentStatus.active ∨
      st = AgentStatus.terminated ∨ st = AgentStatus.error) :
    Inv (applyTransition dOk s agentId agent st) := by
  obtain ⟨hN1, hN2, hN3, hIff, hKey⟩ := hInv
  have hAid : agent.agentId = agentId := hKey agentId agent hl
  obtain ⟨rec, hreceq, hrecAid, hrecStatus⟩ :
      ∃ r : AgentInstance, { agent with status := st } = r ∧
        r.agentId = agentId ∧ r.status = st :=
    ⟨{ agent with status := st }, rfl, hAid, rfl⟩
  have hN1' : keysNodup (setKV s.agents agentId rec) :=
    keysNodup_setKV agentId _ hN1
  have hKey1 : ∀ id a, lookupKV (setKV s.agents agentId rec) id = some a →
      a.agentId = id := by
    intro id a hla
    by_cases hid : id = agentId
    · subst hid
      rw [lookupKV_setKV_self] at hla
      cases hla
      exact hrecAid
    · rw [lookupKV_setKV_ne _ _ hid] at hla
      exact hKey id a hla
  have hIffNe : ∀ id, id ≠ agentId →
      (BehaviorExecutor.isRunning
          { s with agents := setKV s.agents agentId rec } id = true ↔
        isActiveAgent { s with agents := setKV s.agents agentId rec } id) := by
    intro id hid
    have h2 : isActiveAgent { s with agents := setKV s.agents agentId rec } id
        ↔ isActiveAgent s id := by
      simp [isActiveAgent, lookupKV_setKV_ne _ _ hid]
    rw [h2]
    exact hIff id
  rcases hst with rfl | rfl | rfl | rfl
  -- paused: status written, then `handlePause` = `BehaviorExecutor.stop`
  · show Inv (BehaviorExecutor.stop _ agentId)
    rw [hreceq]
    refine ⟨?_, ?_, ?_, ?_, ?_⟩
    · rw [stop_agents]; exact hN1'
    · rw [stop_actions]; exact hN2
    · exact keysNodup_stop _ _ hN3
    · intro id
      by_cases hid : id = agentId
      · subst hid
        constructor
        · intro hrun
          simp [BehaviorExecutor.isRunning, lookupKV_stop_self] at hrun
        · rintro ⟨a, ha, hsta⟩
          rw [stop_agents, lookupKV_setKV_self] at ha
          cases ha
          rw [hrecStatus] at hsta
          exact absurd hsta (by decide)
      · have h1 : BehaviorExecutor.isRunning (BehaviorExecutor.stop
            { s with agents := setKV s.agents agentId rec } agentId) id =
            BehaviorExecutor.isRunning
              { s with agents := setKV s.agents agentId rec } id := by
          simp [BehaviorExecutor.isRunning, lookupKV_stop_ne _ hid]
        have h2 : isActiveAgent (BehaviorExecutor.stop
            { s with agents := setKV s.agents agentId rec } agentId) id ↔
            isActiveAgent { s with agents := setKV s.agents agentId rec } id := by
          simp [isActiveAgent, stop_agents]
        rw [h1, h2]
        exact hIffNe id hid
    · intro id a hla
      rw [stop_agents] at hla
      exact hKey1 id a hla
  -- active: status written, then `handleResume`
  · show Inv (LifecycleManager.handleResume _ agent)
    rw [hreceq]
    simp only [LifecycleManager.handleResume, BehaviorExecutor.initAgent, hAid]
    by_cases hrun : BehaviorExecutor.isRunning
        { s with agents := setKV s.agents agentId rec } agentId
    · rw [if_pos hrun]
      refine ⟨hN1', hN2, hN3, ?_, hKey1⟩
      intro id
      by_cases hid : id = agentId
      · subst hid
        constructor
        · intro _
          exact ⟨rec, lookupKV_setKV_self .., hrecStatus⟩
        · intro _
          exact hrun
      · exact hIffNe id hid
    · rw [if_neg hrun]
      refine ⟨hN1', hN2, keysNodup_setKV _ _ hN3, ?_, hKey1⟩
      intro id
      by_cases hid : id = agentId
      · subst hid
        constructor
        · intro _
          exact ⟨rec, lookupKV_setKV_self .., hrecStatus⟩
        · intro _
          simp [BehaviorExecutor.isRunning, lookupKV_setKV_self]
      · simp only [BehaviorExecutor.isRunning, isActiveAgent,
          lookupKV_setKV_ne _ _ hid]
        simpa [BehaviorExecutor.isRunning, isActiveAgent] using hIff id
  -- terminated: status written, then `handleTermination`
  · show Inv (LifecycleManager.handleTermination dOk _ agent)
    rw [hreceq]
    refine ⟨?_, ?_, ?_, ?_, ?_⟩
    · rw [handleTermination_agents]; exact hN1'
    · rw [handleTermination_actions]; exact hN2
    · rw [handleTermination_executors]
      exact keysNodup_stop _ _ hN3
    · intro id
      by_cases hid : id = agentId
      · subst hid
        constructor
        · intro hrun
          simp only [BehaviorExecutor.isRunning, handleTermination_executors,
            hAid, lookupKV_stop_self] at hrun
          cases hrun
        · rintro ⟨a, ha, hsta⟩
          rw [handleTermination_agents, lookupKV_setKV_self] at ha
          cases ha
          rw [hrecStatus] at hsta
          exact absurd hsta (by decide)
      · have h1 : BehaviorExecutor.isRunning
            (LifecycleManager.handleTermination dOk
              { s with agents := setKV s.agents agentId rec } agent) id =
            BehaviorExecutor.isRunning
              { s with agents := setKV s.agents agentId rec } id := by
          simp [BehaviorExecutor.isRunning, handleTermination_executors,
            hAid, lookupKV_stop_ne _ hid]
        have h2 : isActiveAgent
            (LifecycleManager.handleTermination dOk
              { s with agents := setKV s.agents agentId rec } agent) id ↔
            isActiveAgent { s with agents := setKV s.agents agentId rec } id := by
          simp [isActiveAgent, handleTermination_agents]
        rw [h1, h2]
        exact hIffNe id hid
    · intro id a hla
      rw [handleTermination_agents] at hla
      exact hKey1 id a hla
  -- error: status written, then `handleError` = `BehaviorExecutor.stop`
  · show Inv (BehaviorExecutor.stop _ agent.agentId)
    rw [hreceq, hAid]
    refine ⟨?_, ?_, ?_, ?_, ?_⟩
    · rw [stop_agents]; exact hN1'
    · rw [stop_actions]; exact hN2
    · exact keysNodup_stop _ _ hN3
    · intro id
      by_cases hid : id = agentId
      · subst hid
        constructor
        · intro hrun
          simp [BehaviorExecutor.isRunning, lookupKV_stop_self] at hrun
        · rintro ⟨a, ha, hsta⟩
          rw [stop_agents, lookupKV_setKV_self] at ha
          cases ha
          rw [hrecStatus] at hsta
          exact absurd hsta (by decide)
      · have h1 : BehaviorExecutor.isRunning (BehaviorExecutor.stop
            { s with agents := setKV s.agents agentId rec } agentId) id =
            BehaviorExecutor.isRunning
              { s with agents := setKV s.agents agentId rec } id := by
          simp [BehaviorExecutor.isRunning, lookupKV_stop_ne _ hid]
        have h2 : isActiveAgent (BehaviorExecutor.stop
            { s with agents := setKV s.agents agentId rec } agentId) id ↔
            isActiveAgent { s with agents := setKV s.agents agentId rec } id := by
          simp [isActiveAgent, stop_agents]
        rw [h1, h2]
        exact hIffNe id hid
    · intro id a hla
      rw [stop_agents] at hla
      exact hKey1 id a hla

theorem spawnAgent_eq (s : SysState) (agentId botId : String)
    (p : BehavioralProfile) (prompt : String) (now : Nat) :
    spawnAgent s agentId botId p prompt now =
      { agents := setKV (setKV s.agents agentId
            { agentId := agentId, profile := p, status := AgentStatus.spawning,
              minecraftBotId := botId, discordUserId := none,
              systemPrompt := prompt, spawnedAt := now, lastActionAt := none,
              actionCount := 0, metadata := [] }) agentId
            { agentId := agentId, profile := p, status := AgentStatus.active,
              minecraftBotId := botId, discordUserId := none,
              systemPrompt := prompt, spawnedAt := now, lastActionAt := none,
              actionCount := 0, metadata := [] }
        actions := setKV s.actions agentId []
        executors := setKV s.executors agentId
          ⟨s.nextHandle,
            BehaviorExecutor.calculateInterval (getProfile p).actionFrequency⟩
        nextHandle := s.nextHandle + 1
        bots := s.bots ++ [botId]
        disconnectLog := s.disconnectLog } := by
  unfold spawnAgent AgentRepository.create BehaviorExecutor.initAgent
    AgentRepository.update
  simp [lookupKV_setKV_self]

theorem inv_spawn (s : SysState) (agentId botId : String)
    (p : BehavioralProfile) (prompt : String) (now : Nat) (hInv : Inv s) :
    Inv (spawnAgent s agentId botId p prompt now) := by
  obtain ⟨hN1, hN2, hN3, hIff, hKey⟩ := hInv
  rw [spawnAgent_eq]
  refine ⟨?_, ?_, ?_, ?_, ?_⟩
  · exact keysNodup_setKV _ _ (keysNodup_setKV _ _ hN1)
  · exact keysNodup_setKV _ _ hN2
  · exact keysNodup_setKV _ _ hN3
  · intro id
    by_cases hid : id = agentId
    · subst hid
      constructor
      · intro _
        exact ⟨_, lookupKV_setKV_self .., rfl⟩
      · intro _
        simp [BehaviorExecutor.isRunning, lookupKV_setKV_self]
    · simp only [BehaviorExecutor.isRunning, isActiveAgent,
        lookupKV_setKV_ne _ _ hid]
      simpa [BehaviorExecutor.isRunning, isActiveAgent] using hIff id
  · intro id a hla
    by_cases hid : id = agentId
    · subst hid
      rw [lookupKV_setKV_self] at hla
      cases hla
      rfl
    · rw [lookupKV_setKV_ne _ _ hid, lookupKV_setKV_ne _ _ hid] at hla
      exact hKey id a hla

theorem logAction_agents (s : SysState) (aid b : String) (suc : Bool)
    (actionId : String) (now : Nat) :
    (BehaviorExecutor.logAction s aid b suc actionId now).agents =
      s.agents := rfl

theorem logAction_executors (s : SysState) (aid b : String) (suc : Bool)
    (actionId : String) (now : Nat) :
    (BehaviorExecutor.logAction s aid b suc actionId now).executors =
      s.executors := rfl

theorem inv_tick (s : SysState) (agent : AgentInstance) (k : Nat)
    (actionId : String) (now : Nat) (hInv : Inv s) :
    Inv (BehaviorExecutor.executeBehavior s agent k actionId now) := by
  obtain ⟨hN1, hN2, hN3, hIff, hKey⟩ := hInv
  unfold BehaviorExecutor.executeBehavior
  by_cases hb : botManager.getBot s agent.minecraftBotId = false
  · rw [if_pos hb]
    exact ⟨hN1, hN2, hN3, hIff, hKey⟩
  · rw [if_neg hb]
    cases hcur : lookupKV s.agents agent.agentId with
    | none => exact ⟨hN1, hN2, hN3, hIff, hKey⟩
    | some cur =>
      dsimp only
      by_cases hst : cur.status ≠ AgentStatus.active
      · rw [if_pos hst]
        exact ⟨hN1, hN2, hN3, hIff, hKey⟩
      · rw [if_neg hst]
        push_neg at hst
        have hcurAid : cur.agentId = agent.agentId := hKey _ _ hcur
        have hlu : ∀ (b : String) (r : Bool),
            lookupKV (BehaviorExecutor.logAction s cur.agentId b r actionId
              now).agents cur.agentId = some cur := by
          intro b r
          rw [logAction_agents, hcurAid]
          exact hcur
        simp only [AgentRepository.update, hlu]
        refine ⟨?_, ?_, ?_, ?_, ?_⟩
        · exact keysNodup_setKV _ _ hN1
        · exact keysNodup_setKV _ _ hN2
        · exact hN3
        · intro id
          by_cases hid : id = cur.agentId
          · subst hid
            constructor
            · intro _
              exact ⟨_, lookupKV_setKV_self .., hst⟩
            · intro _
              exact (hIff cur.agentId).mpr
                ⟨cur, by rw [hcurAid]; exact hcur, hst⟩
          · simp only [BehaviorExecutor.isRunning, isActiveAgent,
              lookupKV_setKV_ne _ _ hid, logAction_agents,
              logAction_executors]
            simpa [BehaviorExecutor.isRunning, isActiveAgent] using hIff id
        · intro id a hla
          by_cases hid : id = cur.agentId
          · subst hid
            rw [lookupKV_setKV_self] at hla
            cases hla
            rfl
          · rw [lookupKV_setKV_ne _ _ hid, logAction_agents] at hla
            exact hKey id a hla

theorem reachable_inv {s : SysState} (h : Reachable s) : Inv s := by
  induction h with
  | init => exact inv_init
  | step hr hstep ih =>
    cases hstep with
    | spawn _ agentId botId p prompt now fresh =>
      exact inv_spawn _ agentId botId p prompt now ih
    | pause dOk _ _ agentId h =>
      obtain ⟨agent, hl, rfl⟩ := transitionStatus_ok_elim h
      exact inv_applyTransition dOk _ agentId agent _ ih hl (Or.inl rfl)
    | resume dOk _ _ agentId h =>
      obtain ⟨agent, hl, rfl⟩ := transitionStatus_ok_elim h
      exact inv_applyTransition dOk _ agentId agent _ ih hl
        (Or.inr (Or.inl rfl))
    | terminate dOk _ _ agentId h =>
      obtain ⟨agent, hl, rfl⟩ := transitionStatus_ok_elim h
      exact inv_applyTransition dOk _ agentId agent _ ih hl
        (Or.inr (Or.inr (Or.inl rfl)))
    | errorTransition dOk _ _ agentId h =>
      obtain ⟨agent, hl, rfl⟩ := transitionStatus_ok_elim h
      exact inv_applyTransition dOk _ agentId agent _ ih hl
        (Or.inr (Or.inr (Or.inr rfl)))
    | tick _ agent k actionId now =>
      exact inv_tick _ agent k actionId now ih

theorem contains_filter_ne_self (l : List String) (x : String) :
    (l.filter (fun b => b ≠ x)).contains x = false := by
  induction l with
  | nil => rfl
  | cons b rest ih =>
    by_cases hb : b = x
    · simpa [List.filter_cons, hb] using ih
    · have hxb : ¬ (x = b) := fun hh => hb hh.symm
      simpa [List.filter_cons, hb, List.contains_cons, hxb] using ih

theorem handleTermination_getBot_false (s : SysState)
    (agent : AgentInstance) :
    botManager.getBot (LifecycleManager.handleTermination true s agent)
      agent.minecraftBotId = false := by
  unfold LifecycleManager.handleTermination botManager.disconnectBot
  by_cases hb : botManager.getBot (BehaviorExecutor.stop s agent.agentId)
      agent.minecraftBotId
  · rw [if_pos hb]
    simpa [botManager.getBot] using
      contains_filter_ne_self
        (BehaviorExecutor.stop s agent.agentId).bots agent.minecraftBotId
  · rw [if_neg hb]
    simpa using hb

theorem update_match_executors (s : SysState) (aid : String)
    (f : AgentInstance → AgentInstance) :
    (match AgentRepository.update s aid f with
      | .ok s2 => s2
      | .error e => e.2).executors = s.executors := by
  unfold AgentRepository.update
  cases lookupKV s.agents aid <;> rfl

theorem handleTermination_noBot (dOk : Bool) (s : SysState)
    (agent : AgentInstance)
    (hb : botManager.getBot s agent.minecraftBotId = false) :
    LifecycleManager.handleTermination dOk s agent =
      BehaviorExecutor.stop s agent.agentId := by
  unfold LifecycleManager.handleTermination
  have hb' : botManager.getBot (BehaviorExecutor.stop s agent.agentId)
      agent.minecraftBotId = false := by
    simpa [botManager.getBot, stop_bots] using hb
  rw [if_neg (by simp [hb'])]

/-! ## Claim theorems -/

/-- C1, counterexample: the code has no terminal-state guard. In
`exTerminatedState` the agent `agent-1` is stored as `terminated`, yet a
requested transition to `active` is accepted: the stored status changes to
`active` and a scheduler loop is started. This refutes the claim that no
further lifecycle transition is accepted on a terminated agent. -/
theorem terminated_agent_accepts_active_transition :
    exTerminatedAgent.status = AgentStatus.terminated ∧
    lookupKV exTerminatedState.agents "agent-1" = some exTerminatedAgent ∧
    LifecycleManager.transitionStatus true exTerminatedState "agent-1"
      AgentStatus.active = .ok exRevivedState ∧
    AgentRepository.findById exRevivedState "agent-1" =
      some { exTerminatedAgent with status := AgentStatus.active } ∧
    BehaviorExecutor.isRunning exRevivedState "agent-1" = true := by
  refine ⟨rfl, rfl, rfl, rfl, rfl⟩

/-- C1, amended: transitions on a terminated agent are accepted like any
other (the status is overwritten and the handler runs); what does hold is
that terminating the same agent a second time does not throw and, the
first disconnect having succeeded, does not invoke the environment
disconnect a second time, and the status stays `terminated`. -/
theorem reterminate_no_throw_no_second_disconnect :
    ∀ (s : SysState) (agentId : String) (agent : AgentInstance)
      (s1 : SysState),
      lookupKV s.agents agentId = some agent →
      LifecycleManager.transitionStatus true s agentId
        AgentStatus.terminated = .ok s1 →
      ∀ dOk2 : Bool, ∃ s2,
        LifecycleManager.transitionStatus dOk2 s1 agentId
          AgentStatus.terminated = .ok s2 ∧
        s2.disconnectLog = s1.disconnectLog ∧
        lookupKV s2.agents agentId =
          some { agent with status := AgentStatus.terminated } := by
  intro s agentId agent s1 hl h1 dOk2
  rw [transitionStatus_eq_ok true s agentId agent _ hl] at h1
  injection h1 with h1
  subst h1
  set rec : AgentInstance := { agent with status := AgentStatus.terminated }
    with hrec
  set sW : SysState := { s with agents := setKV s.agents agentId rec }
    with hsW
  set T1 : SysState :=
    applyTransition true s agentId agent AgentStatus.terminated with hT1
  have hb1 : botManager.getBot T1 agent.minecraftBotId = false :=
    handleTermination_getBot_false sW agent
  have hl2 : lookupKV T1.agents agentId = some rec := by
    have hag : T1.agents = sW.agents := handleTermination_agents true sW agent
    rw [hag]
    exact lookupKV_setKV_self ..
  set T1W : SysState := { T1 with agents := setKV T1.agents agentId rec }
    with hT1W
  have hred : applyTransition dOk2 T1 agentId rec AgentStatus.terminated =
      BehaviorExecutor.stop T1W rec.agentId :=
    handleTermination_noBot dOk2 T1W rec
      (show botManager.getBot T1W rec.minecraftBotId = false from hb1)
  refine ⟨_, transitionStatus_eq_ok dOk2 T1 agentId rec _ hl2, ?_, ?_⟩
  · rw [hred, stop_disconnectLog]
  · rw [hred, stop_agents]
    exact lookupKV_setKV_self ..

/-- Witness for the amended C1 theorem at a concrete state: terminating
`agent-2` of `exActiveState` twice. -/
theorem reterminate_no_throw_no_second_disconnect_witness :
    ∃ s2, LifecycleManager.transitionStatus true exTerminatedOnce "agent-2"
        AgentStatus.terminated = .ok s2 ∧
      s2.disconnectLog = exTerminatedOnce.disconnectLog ∧
      lookupKV s2.agents "agent-2" =
        some { exActiveAgent with status := AgentStatus.terminated } :=
  reterminate_no_throw_no_second_disconnect exActiveState "agent-2"
    exActiveAgent exTerminatedOnce rfl rfl true

/-- C2: at every state reachable through the lifecycle and scheduler
operations (spawn, pause, resume, terminate, error, tick), an agent holds
an entry in the scheduler's agent-to-timer-handle map iff its stored
status is `active`: exactly one timer exists per `active` agent and zero
timers exist for an agent in any other status (or not on record). -/
theorem reachable_timer_iff_active :
    ∀ s : SysState, Reachable s → ∀ agentId : String,
      (isActiveAgent s agentId → timersFor s agentId = 1) ∧
      (¬ isActiveAgent s agentId → timersFor s agentId = 0) := by
  intro s hr agentId
  obtain ⟨_, _, hN3, hIff, _⟩ := reachable_inv hr
  have hcount := length_filter_key (m := s.executors) agentId hN3
  constructor
  · intro hact
    have hrun : BehaviorExecutor.isRunning s agentId = true :=
      (hIff agentId).mpr hact
    simp only [BehaviorExecutor.isRunning] at hrun
    unfold timersFor
    rw [hcount, if_pos hrun]
  · intro hnact
    have hrun : ¬ (BehaviorExecutor.isRunning s agentId = true) :=
      fun h => hnact ((hIff agentId).mp h)
    simp only [BehaviorExecutor.isRunning] at hrun
    unfold timersFor
    rw [hcount, if_neg hrun]

/-- Witness for C2 at the concrete reachable state obtained by one spawn:
`agent-1` is active and holds exactly one timer. -/
theorem reachable_timer_iff_active_witness :
    Reachable exSpawnedState ∧ isActiveAgent exSpawnedState "agent-1" ∧
      timersFor exSpawnedState "agent-1" = 1 := by
  have hr : Reachable exSpawnedState :=
    Reachable.step Reachable.init
      (Step.spawn initState "agent-1" "bot-1" BehavioralProfile.cooperative
        "p" 0 rfl)
  have ha : isActiveAgent exSpawnedState "agent-1" := ⟨_, rfl, rfl⟩
  exact ⟨hr, ha, (reachable_timer_iff_active exSpawnedState hr "agent-1").1 ha⟩

/-- C3: requesting `active` for an agent that already has a running loop is
a no-op on the scheduler, enforced by the `isRunning` check on the
scheduler's own agent-to-timer-handle map: the executor map is unchanged,
no new timer handle is allocated, the original handle survives, and
exactly one timer handle exists for that agent. -/
theorem resume_idempotent_when_loop_running :
    ∀ (dOk : Bool) (s : SysState) (agentId : String)
      (agent : AgentInstance) (t : Timer),
      lookupKV s.agents agentId = some agent →
      agent.agentId = agentId →
      lookupKV s.executors agentId = some t →
      keysNodup s.executors →
      ∃ s', LifecycleManager.transitionStatus dOk s agentId
          AgentStatus.active = .ok s' ∧
        s'.executors = s.executors ∧
        s'.nextHandle = s.nextHandle ∧
        lookupKV s'.executors agentId = some t ∧
        timersFor s' agentId = 1 := by
  intro dOk s agentId agent t hl hAid ht hN
  have hres : applyTransition dOk s agentId agent AgentStatus.active =
      { s with agents :=
          setKV s.agents agentId ({ agent with status := AgentStatus.active }) } := by
    show LifecycleManager.handleResume _ agent = _
    unfold LifecycleManager.handleResume
    rw [if_pos (by simp [BehaviorExecutor.isRunning, hAid, ht])]
  refine ⟨_, transitionStatus_eq_ok dOk s agentId agent _ hl, ?_, ?_, ?_, ?_⟩
  · rw [hres]
  · rw [hres]
  · rw [hres]
    exact ht
  · rw [hres]
    unfold timersFor
    rw [length_filter_key agentId hN, if_pos (by simp [ht])]

/-- Witness for C3 at `exActiveState`, whose loop for `agent-2` holds the
timer handle 7. -/
theorem resume_idempotent_when_loop_running_witness :
    ∃ s', LifecycleManager.transitionStatus true exActiveState "agent-2"
        AgentStatus.active = .ok s' ∧
      s'.executors = exActiveState.executors ∧
      s'.nextHandle = exActiveState.nextHandle ∧
      lookupKV s'.executors "agent-2" = some ⟨7, 10000⟩ ∧
      timersFor s' "agent-2" = 1 :=
  resume_idempotent_when_loop_running true exActiveState "agent-2"
    exActiveAgent ⟨7, 10000⟩ rfl rfl rfl (by simp [keysNodup, exActiveState])

/-- C4, counterexample: `AgentRepository.create` does not reject a
duplicate identifier. Creating `agent-3` again over `exAgent3State`
succeeds, replaces the stored record, and resets the action log of
`agent-3` to empty, refuting both the `DuplicateAgent` failure and the
claim that the existing record and its entries are left unchanged. -/
theorem duplicate_create_overwrites_and_clears_log :
    lookupKV exAgent3State.agents "agent-3" = some exAgent3 ∧
    lookupKV exAgent3State.actions "agent-3" = some [exAction1] ∧
    exAgent3' ≠ exAgent3 ∧
    lookupKV (AgentRepository.create exAgent3State exAgent3').agents
      "agent-3" = some exAgent3' ∧
    lookupKV (AgentRepository.create exAgent3State exAgent3').actions
      "agent-3" = some [] := by
  refine ⟨rfl, rfl, by decide, rfl, rfl⟩

/-- C4, amended: calling `create` with a record whose identifier already
exists does not fail: it overwrites the stored agent record with the new
one and resets that agent's action log to the empty list. -/
theorem create_existing_id_replaces_record_resets_log :
    ∀ (s : SysState) (agent : AgentInstance),
      (lookupKV s.agents agent.agentId).isSome →
      lookupKV (AgentRepository.create s agent).agents agent.agentId =
        some agent ∧
      lookupKV (AgentRepository.create s agent).actions agent.agentId =
        some [] := by
  intro s agent _
  exact ⟨lookupKV_setKV_self .., lookupKV_setKV_self ..⟩

/-- Witness for the amended C4 theorem: re-creating `agent-3` over
`exAgent3State`. -/
theorem create_existing_id_replaces_record_resets_log_witness :
    lookupKV (AgentRepository.create exAgent3State exAgent3').agents
      "agent-3" = some exAgent3' ∧
    lookupKV (AgentRepository.create exAgent3State exAgent3').actions
      "agent-3" = some [] :=
  create_existing_id_replaces_record_resets_log exAgent3State exAgent3'
    (by decide)

/-- C5: once the status write has committed, terminating an existing agent
returns successfully whatever the environment disconnect does: the
transition returns `.ok` for both disconnect outcomes and the stored
status remains `terminated`. -/
theorem termination_commits_despite_disconnect_failure :
    ∀ (dOk : Bool) (s : SysState) (agentId : String)
      (agent : AgentInstance),
      lookupKV s.agents agentId = some agent →
      ∃ s2, LifecycleManager.transitionStatus dOk s agentId
          AgentStatus.terminated = .ok s2 ∧
        lookupKV s2.agents agentId =
          some { agent with status := AgentStatus.terminated } := by
  intro dOk s agentId agent hl
  refine ⟨_, transitionStatus_eq_ok dOk s agentId agent _ hl, ?_⟩
  rw [show (applyTransition dOk s agentId agent
      AgentStatus.terminated).agents =
      setKV s.agents agentId { agent with status := AgentStatus.terminated }
    from handleTermination_agents dOk _ agent]
  exact lookupKV_setKV_self ..

/-- Witness for C5 with a failing disconnect (`dOk = false`) on
`exActiveState`. -/
theorem termination_commits_despite_disconnect_failure_witness :
    ∃ s2, LifecycleManager.transitionStatus false exActiveState "agent-2"
        AgentStatus.terminated = .ok s2 ∧
      lookupKV s2.agents "agent-2" =
        some { exActiveAgent with status := AgentStatus.terminated } :=
  termination_commits_despite_disconnect_failure false exActiveState
    "agent-2" exActiveAgent rfl

/-- C6: the scheduler's tick period is the fixed value
`60000 / ((min + max) / 2)` milliseconds: `calculateInterval` equals that
formula, it yields exactly 10000 ms for the range 3..9, the timer
registered at loop start carries exactly that period, and a tick never
changes the executor map (no per-tick re-randomization). -/
theorem tick_period_fixed_average_formula :
    (∀ freq : ActionFrequency, BehaviorExecutor.calculateInterval freq =
        60000 / ((freq.minActionsPerMinute + freq.maxActionsPerMinute) / 2)) ∧
    BehaviorExecutor.calculateInterval
      { minActionsPerMinute := 3, maxActionsPerMinute := 9 } = 10000 ∧
    (∀ (s : SysState) (agent : AgentInstance),
      lookupKV (BehaviorExecutor.initAgent s agent).executors
        agent.agentId = some ⟨s.nextHandle,
          BehaviorExecutor.calculateInterval
            (getProfile agent.profile).actionFrequency⟩) ∧
    (∀ (s : SysState) (agent : AgentInstance) (k : Nat)
      (actionId : String) (now : Nat),
      (BehaviorExecutor.executeBehavior s agent k actionId now).executors =
        s.executors) := by
  refine ⟨?_, ?_, ?_, ?_⟩
  · intro freq
    unfold BehaviorExecutor.calculateInterval
    norm_num
  · unfold BehaviorExecutor.calculateInterval
    norm_num
  · intro s agent
    exact lookupKV_setKV_self ..
  · intro s agent k actionId now
    unfold BehaviorExecutor.executeBehavior
    by_cases hb : botManager.getBot s agent.minecraftBotId = false
    · rw [if_pos hb]
    · rw [if_neg hb]
      cases hcur : lookupKV s.agents agent.agentId with
      | none => rfl
      | some cur =>
        dsimp only
        by_cases hst : cur.status ≠ AgentStatus.active
        · rw [if_pos hst]
        · rw [if_neg hst]
          rw [update_match_executors]
          rfl

/-- C7: requesting a transition for an identifier with no record throws
`Agent <id> not found` carrying the untouched state: no status write, no
scheduler change, no environment call has happened. -/
theorem transition_unknown_agent_fails_before_mutation :
    ∀ (dOk : Bool) (s : SysState) (agentId : String) (st : AgentStatus),
      lookupKV s.agents agentId = none →
      LifecycleManager.transitionStatus dOk s agentId st =
        .error ("Agent " ++ agentId ++ " not found", s) := by
  intro dOk s agentId st hl
  unfold LifecycleManager.transitionStatus
  rw [hl]

/-- Witness for C7: an unknown identifier on the process-start state. -/
theorem transition_unknown_agent_fails_before_mutation_witness :
    LifecycleManager.transitionStatus true initState "ghost"
      AgentStatus.active =
      .error ("Agent " ++ "ghost" ++ " not found", initState) :=
  transition_unknown_agent_fails_before_mutation true initState "ghost"
    AgentStatus.active rfl

/-- C8: action-log retrieval returns at most `limit` entries, in
timestamp-descending order, and equal to the `limit`-prefix of the full
timestamp-descending ordering of the agent's entries. -/
theorem findActions_truncated_sorted_desc :
    ∀ (s : SysState) (agentId : String) (limit : Nat),
      (AgentRepository.findActions s agentId limit).length ≤ limit ∧
      List.Pairwise (fun a b : BehavioralAction =>
        b.timestamp ≤ a.timestamp)
        (AgentRepository.findActions s agentId limit) ∧
      AgentRepository.findActions s agentId limit =
        (((lookupKV s.actions agentId).getD []).mergeSort
          AgentRepository.tsDescLE).take limit := by
  intro s agentId limit
  refine ⟨?_, ?_, rfl⟩
  · unfold AgentRepository.findActions
    rw [List.length_take]
    exact inf_le_left
  · unfold AgentRepository.findActions
    have htrans : ∀ a b c : BehavioralAction,
        AgentRepository.tsDescLE a b = true →
        AgentRepository.tsDescLE b c = true →
        AgentRepository.tsDescLE a c = true := by
      intro a b c hab hbc
      simp only [AgentRepository.tsDescLE, decide_eq_true_eq] at *
      exact le_trans hbc hab
    have htotal : ∀ a b : BehavioralAction,
        (AgentRepository.tsDescLE a b || AgentRepository.tsDescLE b a) =
          true := by
      intro a b
      simp only [AgentRepository.tsDescLE, Bool.or_eq_true,
        decide_eq_true_eq]
      exact Nat.le_total b.timestamp a.timestamp
    have hsorted := List.sorted_mergeSort htrans htotal
      ((lookupKV s.actions agentId).getD [])
    have hs2 : List.Pairwise (fun a b : BehavioralAction =>
        b.timestamp ≤ a.timestamp)
        (((lookupKV s.actions agentId).getD []).mergeSort
          AgentRepository.tsDescLE) :=
      hsorted.imp (fun h => by
        simpa [AgentRepository.tsDescLE, decide_eq_true_eq] using h)
    exact List.Pairwise.sublist (List.take_sublist _ _) hs2

/-- C9: every one of the six registered profile definitions satisfies
`min ≤ max` on the action-frequency range, `min ≤ max` on the
response-delay range, `ignoreRate ∈ [0, 1]`, and has non-empty Minecraft
and Discord behavior lists. -/
theorem profile_registry_definitions_wellFormed :
    ∀ p : BehavioralProfile,
      (getProfile p).actionFrequency.minActionsPerMinute ≤
        (getProfile p).actionFrequency.maxActionsPerMinute ∧
      (getProfile p).responsePatterns.responseDelay.min ≤
        (getProfile p).responsePatterns.responseDelay.max ∧
      0 ≤ (getProfile p).responsePatterns.ignoreRate ∧
      (getProfile p).responsePatterns.ignoreRate ≤ 1 ∧
      (getProfile p).minecraftBehaviors ≠ [] ∧
      (getProfile p).discordBehaviors ≠ [] := by
  intro p
  cases p <;>
    exact ⟨by norm_num [getProfile, CooperativeProfile, NonCooperatorProfile,
        ConfuserProfile, ResourceHoarderProfile, TaskAbandonerProfile,
        OverCommunicatorProfile],
      by norm_num [getProfile, CooperativeProfile, NonCooperatorProfile,
        ConfuserProfile, ResourceHoarderProfile, TaskAbandonerProfile,
        OverCommunicatorProfile],
      by norm_num [getProfile, CooperativeProfile, NonCooperatorProfile,
        ConfuserProfile, ResourceHoarderProfile, TaskAbandonerProfile,
        OverCommunicatorProfile],
      by norm_num [getProfile, CooperativeProfile, NonCooperatorProfile,
        ConfuserProfile, ResourceHoarderProfile, TaskAbandonerProfile,
        OverCommunicatorProfile],
      by decide, by decide⟩

/-- C10: appending an action-log entry whose owning identifier has no
agent record does not fail and is not rejected: the entry is stored under
that identifier, is returned by retrieval, and still no agent record
exists for it. -/
theorem createAction_unknown_agent_stored_and_retrievable :
    ∀ (s : SysState) (e : BehavioralAction),
      lookupKV s.agents e.agentId = none →
      lookupKV s.actions e.agentId = none →
      lookupKV (AgentRepository.createAction s e).actions e.agentId =
        some [e] ∧
      AgentRepository.findActions (AgentRepository.createAction s e)
        e.agentId 100 = [e] ∧
      lookupKV (AgentRepository.createAction s e).agents e.agentId =
        none := by
  intro s e hA hAc
  have h1 : lookupKV (AgentRepository.createAction s e).actions e.agentId =
      some [e] := by
    unfold AgentRepository.createAction
    simp [hAc, lookupKV_setKV_self]
  refine ⟨h1, ?_, ?_⟩
  · unfold AgentRepository.findActions
    rw [h1]
    have hperm := List.mergeSort_perm [e] AgentRepository.tsDescLE
    simp only [Option.getD_some]
    rw [List.perm_singleton.mp hperm]
    rfl
  · exact hA

/-- Witness for C10: an orphan entry appended on the process-start
state. -/
theorem createAction_unknown_agent_stored_and_retrievable_witness :
    lookupKV (AgentRepository.createAction initState exOrphanAction).actions
      "ghost" = some [exOrphanAction] ∧
    AgentRepository.findActions
      (AgentRepository.createAction initState exOrphanAction) "ghost" 100 =
      [exOrphanAction] ∧
    lookupKV (AgentRepository.createAction initState exOrphanAction).agents
      "ghost" = none :=
  createAction_unknown_agent_stored_and_retrievable initState
    exOrphanAction rfl rfl

end AgentsArena
